import Mathlib

/-!
Verification of the relational/threading core of a FastAPI blog backend
(models.py, comment.py, post.py, tag.py).

The persistent store is embedded as lists of rows, one list per table of
models.py.  Integer primary keys are Nat, drawn from a single global
sequence `next_id`; DateTime columns are Nat ticks supplied by the caller
as a `now` argument.  Route handlers become functions `args → DB → DB ×
Except Err α`: an error before or during the commit returns the input
store unchanged (the transaction rolls back) together with the error.
`db.query(T).filter(...).first()` is `List.find?`, `.all()` is
`List.filter`, an UPDATE of the row with a given primary key is a
pointwise `List.map` guarded by that key, and a DELETE is a `List.filter`.

Modelled from the spec: database.py (the engine/session setup deciding
whether the declared foreign keys are enforced) is not under src/; per
the spec's data-model invariants the store is modelled as enforcing the
foreign keys declared in models.py.  Consequently a DB-level DELETE fires
the declared `ondelete="CASCADE"` actions, and an INSERT whose foreign
key has no target fails as an unhandled IntegrityError (HTTP 500).  The
authenticated user always exists (the auth dependency resolves it from
the users table), so user-id foreign keys are always satisfiable;
categories are modelled as a list of existing ids for the category_id
foreign key.

ORM semantics of models.py that the handlers hit, reproduced faithfully:
- CommentLike, Like, PostImage and CommentImage declare
  `default=datetime` / `onupdate=datetime` with the bare datetime class:
  calling it without arguments raises TypeError, so every INSERT into
  these tables, and every ORM UPDATE that does not set the stamped column
  explicitly, raises at flush (unhandled, HTTP 500, nothing committed).
- `Post.comments/likes/images/tags` are plain relationships (no delete
  cascade, no passive_deletes): `db.delete(post)` de-associates the loaded
  children by nulling their foreign key, it does not delete them.  For
  comments and likes that nulling UPDATE fires `onupdate=datetime` and
  crashes; for PostImage rows (no onupdate) it succeeds and leaves them
  orphaned with post_id NULL.
- Assigning a list of Tag objects to `post_instance.tags` (a PostTag
  collection) raises FlushError, and de-associating an existing PostTag
  row blanks its primary-key column post_id (AssertionError); either way
  the flush crashes and the transaction rolls back.
- Comment.updated_at also declares `onupdate=datetime`, but every handler
  that updates a comment sets updated_at explicitly, overriding the
  onupdate, so comment UPDATEs succeed; comment INSERTs use the proper
  datetime.utcnow defaults and succeed.
-/
/-- Error outcome of a handler.  `notFound` is HTTP 404, `forbidden` 403,
`badRequest` 400 (the code reports duplicate likes and missing tag ids as
plain 400s with a fixed detail string), `internalError` an unhandled
Python/ORM exception surfacing as HTTP 500. -/
inductive Err where
  | notFound
  | forbidden
  | badRequest
  | internalError
deriving Repr, DecidableEq

/-- Row of the `posts` table (models.py, class Post). -/
structure PostRow where
  id : Nat
  title : String
  content : String
  category_id : Option Nat
  user_id : Nat
  is_published : Bool
  published_at : Option Nat
  slug : Option String
  created_at : Nat
  updated_at : Nat
deriving Repr, DecidableEq

/-- Row of the `tags` table (models.py, class Tag). -/
structure TagRow where
  id : Nat
  name : String
  user_id : Nat
deriving Repr, DecidableEq

/-- Row of the `post_tags` join table (models.py, class PostTag). -/
structure PostTagRow where
  post_id : Nat
  tag_id : Nat
deriving Repr, DecidableEq

/-- Row of the `comments` table (models.py, class Comment).  `post_id` is
written by every creating handler, so it is a plain Nat; `parent_id` is
genuinely NULL for top-level comments. -/
structure CommentRow where
  id : Nat
  post_id : Nat
  user_id : Nat
  parent_id : Option Nat
  content : String
  created_at : Nat
  updated_at : Nat
deriving Repr, DecidableEq

/-- Row of the `likes` table (models.py, class Like).  Its timestamp
columns default to the bare `datetime` class, so the handlers can never
insert such a row (see like_post); rows can only be seeded externally,
with created_at an arbitrary tick. -/
structure LikeRow where
  id : Nat
  post_id : Nat
  user_id : Nat
  created_at : Nat
deriving Repr, DecidableEq

/-- Row of the `comment_likes` table (models.py, class CommentLike).  Its
timestamp columns default to the bare `datetime` class, so the handlers
can never insert such a row (see like_comment); rows can only be seeded
externally. -/
structure CommentLikeRow where
  id : Nat
  comment_id : Nat
  user_id : Nat
  created_at : Nat
deriving Repr, DecidableEq

/-- Row of the `post_images` table (models.py, class PostImage).  The
nullable post_id is genuinely nulled when the ORM de-associates the row
from a deleted or updated post, so it is an Option. -/
structure PostImageRow where
  id : Nat
  post_id : Option Nat
  image_url : String
deriving Repr, DecidableEq

/-- Row of the `comment_images` table (models.py, class CommentImage). -/
structure CommentImageRow where
  id : Nat
  comment_id : Nat
  image_url : String
deriving Repr, DecidableEq

/-- The persistent store: one list per table used by the claims, plus the
shared primary-key sequence.  Users are identified by their Nat id only
(authentication is external to the core); categories, which no claim
manipulates, are kept as their ids for the category_id foreign key. -/
structure DB where
  posts : List PostRow := []
  categories : List Nat := []
  tags : List TagRow := []
  post_tags : List PostTagRow := []
  comments : List CommentRow := []
  comment_likes : List CommentLikeRow := []
  likes : List LikeRow := []
  post_images : List PostImageRow := []
  comment_images : List CommentImageRow := []
  next_id : Nat := 1
deriving Repr, DecidableEq

/-- `db.query(Comment).filter(Comment.id == comment_id).first()`. -/
def findComment (db : DB) (cid : Nat) : Option CommentRow :=
  db.comments.find? (fun c => c.id == cid)

/-- `db.query(Post).filter(Post.id == post_id).first()` (also used for the
primary-key lookup `db.query(Post).get(post_id)`). -/
def findPost (db : DB) (pid : Nat) : Option PostRow :=
  db.posts.find? (fun p => p.id == pid)

/-- Request schema CommentCreate (comment.py).  The body's `post_id` field
is ignored by both creating handlers (the path parameter, or the parent's
post, wins); `images` defaults to the empty list and is ignored too. -/
structure CommentCreate where
  post_id : Nat
  content : String
  images : List String := []
deriving Repr, DecidableEq

/-- Request schema CommentUpdate (comment.py).  `content` defaults to
None; `images` defaults to `[]`, and since Python truthiness treats None
and `[]` alike in the handler, both are modelled as `[]`. -/
structure CommentUpdate where
  content : Option String := none
  images : List String := []
deriving Repr, DecidableEq

/-- Python truthiness of the Optional[str] `content` field: true exactly
when a non-empty string was supplied. -/
def contentTruthy : Option String → Bool
  | none => false
  | some s => !(s == "")

/-- create_comment_for_post (comment.py lines 263-283).  The handler
performs no existence check on `post_id` and has no NotFound branch: it
unconditionally builds a top-level comment carrying the path parameter as
its post and commits.  Under the foreign-key-enforcing store the commit
raises an unhandled IntegrityError (HTTP 500) when no such post exists;
otherwise the insert succeeds (Comment's timestamp defaults are the
proper datetime.utcnow). -/
def create_comment_for_post (post_id : Nat) (comment : CommentCreate)
    (uid : Nat) (now : Nat) (db : DB) : DB × Except Err CommentRow :=
  let new_comment : CommentRow :=
    { id := db.next_id, post_id := post_id, user_id := uid,
      parent_id := none, content := comment.content,
      created_at := now, updated_at := now }
  match findPost db post_id with
  | none => (db, Except.error Err.internalError)
  | some _ =>
    ({ db with comments := db.comments ++ [new_comment],
               next_id := db.next_id + 1 },
     Except.ok new_comment)

/-- reply_to_comment (comment.py lines 286-316).  404 if the parent
comment is absent; otherwise inserts a comment whose `parent_id` is the
path parameter and whose `post_id` is copied from the parent row (the
body's `post_id` is ignored).  As in create_comment_for_post, the commit
raises IntegrityError when the copied post_id references no post. -/
def reply_to_comment (comment_id : Nat) (comment : CommentCreate)
    (uid : Nat) (now : Nat) (db : DB) : DB × Except Err CommentRow :=
  match findComment db comment_id with
  | none => (db, Except.error Err.notFound)
  | some parent =>
    match findPost db parent.post_id with
    | none => (db, Except.error Err.internalError)
    | some _ =>
      let new_comment : CommentRow :=
        { id := db.next_id, post_id := parent.post_id, user_id := uid,
          parent_id := some comment_id, content := comment.content,
          created_at := now, updated_at := now }
      ({ db with comments := db.comments ++ [new_comment],
                 next_id := db.next_id + 1 },
       Except.ok new_comment)

/-- The content branch of update_comment: guarded by Python truthiness
(`if comment_update.content:`), so any non-empty content — even one equal
to the stored content — rewrites `content` and stamps `updated_at`. -/
def applyContentUpdate (upd : CommentUpdate) (now : Nat) (c : CommentRow) : CommentRow :=
  match upd.content with
  | some s => if s == "" then c else { c with content := s, updated_at := now }
  | none => c

/-- update_comment (comment.py lines 110-141).  404 if absent, 403 if the
actor is not the author.  When a non-empty images list is supplied the
handler replaces the comment's images with fresh CommentImage objects,
whose created_at default is the bare datetime class: the INSERT raises
TypeError at flush and the whole transaction — the content change
included — rolls back (HTTP 500).  Otherwise the content, if truthy, is
rewritten with updated_at set explicitly (overriding Comment.updated_at's
bare onupdate), a pointwise UPDATE of the row with this primary key. -/
def update_comment (comment_id : Nat) (upd : CommentUpdate)
    (uid : Nat) (now : Nat) (db : DB) : DB × Except Err CommentRow :=
  match findComment db comment_id with
  | none => (db, Except.error Err.notFound)
  | some comment =>
    if comment.user_id != uid then (db, Except.error Err.forbidden)
    else if !upd.images.isEmpty then (db, Except.error Err.internalError)
    else
      ({ db with comments :=
           db.comments.map (fun c => if c.id == comment_id then applyContentUpdate upd now c else c) },
       Except.ok (applyContentUpdate upd now comment))

/-- Ids of comments not yet marked whose parent is marked (one level of
the reply-tree cascade). -/
def commentChildrenOf (cs : List CommentRow) (S : List Nat) : List Nat :=
  (cs.filter (fun c =>
      !(S.contains c.id) &&
      (match c.parent_id with
       | some p => S.contains p
       | none => false))).map (fun c => c.id)

/-- One saturation step of the reply-tree cascade. -/
def delStep (cs : List CommentRow) (S : List Nat) : List Nat :=
  S ++ commentChildrenOf cs S

/-- Ids removed when the comment `root` is deleted: `root` together with
its transitive replies, per the `ondelete="CASCADE"` foreign key on
`comments.parent_id`.  Iterating one step more often than there are
comments reaches the fixed point. -/
def cascadeSet (cs : List CommentRow) (root : Nat) : List Nat :=
  (delStep cs)^[cs.length + 1] [root]

/-- delete_comment (comment.py lines 144-165).  404 if absent, 403 if the
actor is not the author; otherwise db.delete(comment): the ORM removes
the root's CommentImage and CommentLike rows (the declared
`delete-orphan` cascade — plain DELETEs, no onupdate fires) and issues
DELETE on the comment row itself.  Comment declares no ORM relationship
for child replies, so the ORM does not touch them; under the
spec-modelled foreign-key-enforcing store, the `ondelete="CASCADE"`
declared on comments.parent_id then removes the reply subtree
transitively, and the same declarations on comment_images.comment_id and
comment_likes.comment_id remove the images and likes of every removed
reply (the spec fixes this policy: deleting a Comment removes child
replies transitively). -/
def delete_comment (comment_id : Nat) (uid : Nat) (db : DB) :
    DB × Except Err Unit :=
  match findComment db comment_id with
  | none => (db, Except.error Err.notFound)
  | some comment =>
    if comment.user_id != uid then (db, Except.error Err.forbidden)
    else
      let S := cascadeSet db.comments comment_id
      ({ db with
          comments := db.comments.filter (fun c => !(S.contains c.id)),
          comment_images := db.comment_images.filter (fun im => !(S.contains im.comment_id)),
          comment_likes := db.comment_likes.filter (fun l => !(S.contains l.comment_id)) },
       Except.ok ())

/-- like_comment (comment.py lines 168-197).  404 if the comment is
absent; 400 ("You have already liked this comment") if a CommentLike row
for this (comment, user) pair already exists — both checks run before any
write and leave the store unchanged.  Otherwise the handler builds
`CommentLike(comment_id=..., user_id=...)` and commits: CommentLike's
created_at/updated_at default to the bare datetime class, so the INSERT
raises TypeError at flush (unhandled, HTTP 500) and no row is ever
created. -/
def like_comment (comment_id : Nat) (uid : Nat) (now : Nat) (db : DB) :
    DB × Except Err Unit :=
  match findComment db comment_id with
  | none => (db, Except.error Err.notFound)
  | some _ =>
    if (db.comment_likes.find? (fun l => l.comment_id == comment_id && l.user_id == uid)).isSome
    then (db, Except.error Err.badRequest)
    else (db, Except.error Err.internalError)

/-- unlike_comment (comment.py lines 200-229).  404 if the comment is
absent; 400 ("You have not liked this comment") if no CommentLike row for
the pair exists; otherwise deletes the found row. -/
def unlike_comment (comment_id : Nat) (uid : Nat) (db : DB) :
    DB × Except Err Unit :=
  match findComment db comment_id with
  | none => (db, Except.error Err.notFound)
  | some _ =>
    match db.comment_likes.find? (fun l => l.comment_id == comment_id && l.user_id == uid) with
    | none => (db, Except.error Err.badRequest)
    | some like =>
      ({ db with comment_likes := db.comment_likes.filter (fun l => !(l.id == like.id)) },
       Except.ok ())

/-- get_comment_likes (comment.py lines 232-247).  404 if the comment is
absent.  Otherwise the source runs `likes = db.query(CommentLike)
.filter(...).all()` and returns `likes.count()`: `likes` is a Python
list, and `list.count` called with no argument raises TypeError, an
unhandled exception — no integer is ever returned. -/
def get_comment_likes (comment_id : Nat) (db : DB) : DB × Except Err Nat :=
  match findComment db comment_id with
  | none => (db, Except.error Err.notFound)
  | some _ => (db, Except.error Err.internalError)

/-- Modelled from the spec: the `count(targetId)` contract of the
Relation/Like Engine, "number of current relations for target" — what
get_comment_likes is specified to return.  The handler body in src never
computes this value. -/
def spec_comment_like_count (comment_id : Nat) (db : DB) : Nat :=
  (db.comment_likes.filter (fun l => l.comment_id == comment_id)).length

/-- Request schema PostCreate (post.py lines 19-33).  `tags` and `images`
default to the empty list. -/
structure PostCreate where
  title : String
  content : String
  category_id : Option Nat := none
  is_published : Bool := false
  slug : Option String := none
  tags : List Nat := []
  images : List String := []
deriving Repr, DecidableEq

/-- Request schema PostUpdate (post.py lines 57-67).  Every field is
Optional and defaults to None — except `tags` and `images`, whose
pydantic defaults are the empty list, so a request body omitting them is
received as `some []`, not `none`. -/
structure PostUpdate where
  title : Option String := none
  content : Option String := none
  category_id : Option Nat := none
  is_published : Option Bool := none
  slug : Option String := none
  tags : Option (List Nat) := some []
  images : Option (List String) := some []
deriving Repr, DecidableEq

/-- The Post row built by create_post; its id is the next value of the
primary-key sequence. -/
def newPostRow (req : PostCreate) (uid : Nat) (now : Nat) (db : DB) : PostRow :=
  { id := db.next_id, title := req.title, content := req.content,
    category_id := req.category_id, user_id := uid,
    is_published := req.is_published, slug := req.slug,
    published_at := some now, created_at := now, updated_at := now }

/-- create_post (post.py lines 129-167).  When `tags` is non-empty the
handler loads the Tag rows whose id is among the requested ids and
compares counts: on a mismatch it raises a plain 400 with the fixed
detail "One or more tags not found." (not a 404, and the missing ids are
not reported) before any write.  The commit then crashes (HTTP 500,
nothing inserted) when images were supplied — each PostImage's bare
`default=datetime` raises TypeError at flush — or when category_id
references no category (IntegrityError).  Otherwise the post and one
PostTag row per found tag are inserted. -/
def create_post (req : PostCreate) (uid : Nat) (now : Nat) (db : DB) :
    DB × Except Err PostRow :=
  if !req.tags.isEmpty &&
     !((db.tags.filter (fun t => req.tags.contains t.id)).length == req.tags.length) then
    (db, Except.error Err.badRequest)
  else if !req.images.isEmpty ||
          (match req.category_id with
           | none => false
           | some c => !(db.categories.contains c)) then
    (db, Except.error Err.internalError)
  else
    ({ db with
       posts := db.posts ++ [newPostRow req uid now db],
       post_tags := db.post_tags ++
         (if req.tags.isEmpty then []
          else (db.tags.filter (fun t => req.tags.contains t.id)).map
                 (fun t => PostTagRow.mk db.next_id t.id)),
       next_id := db.next_id + 1 },
     Except.ok (newPostRow req uid now db))

/-- The scalar-field part of update_post: each field of the request body
that is not None overwrites the stored value; `updated_at` is stamped
unconditionally. -/
def updatePostFields (u : PostUpdate) (now : Nat) (p : PostRow) : PostRow :=
  { p with
    title := u.title.getD p.title,
    content := u.content.getD p.content,
    category_id := match u.category_id with
                   | some c => some c
                   | none => p.category_id,
    is_published := u.is_published.getD p.is_published,
    slug := match u.slug with
            | some s => some s
            | none => p.slug,
    updated_at := now }

/-- The flush of update_post raises (HTTP 500, rollback, store
unchanged) when any of the following holds:
- tags branch (`if post.tags is not None:` — also hit by the defaulted
  `some []`): the post has an existing PostTag row (de-associating it
  blanks the primary-key column post_id, AssertionError), or any supplied
  id matches an existing Tag (the loaded Tag objects are assigned into
  the PostTag collection, FlushError);
- images branch: a non-empty images list (each new PostImage's bare
  `default=datetime` raises TypeError on INSERT);
- a category_id referencing no category (IntegrityError). -/
def updatePostCrash (pid : Nat) (u : PostUpdate) (db : DB) : Bool :=
  (match u.tags with
   | none => false
   | some ids =>
     db.post_tags.any (fun pt => pt.post_id == pid) ||
       !(db.tags.filter (fun t => ids.contains t.id)).isEmpty) ||
  (match u.images with
   | none => false
   | some urls => !urls.isEmpty) ||
  (match u.category_id with
   | none => false
   | some c => !(db.categories.contains c))

/-- The surviving effect of update_post's images branch when it does not
crash (the supplied list must be empty): the post's old PostImage rows
are de-associated, i.e. their post_id is nulled (Post.images has no
delete cascade, and PostImage has no onupdate, so this UPDATE succeeds);
the rows are not deleted. -/
def orphanPostImages (pid : Nat) (images : Option (List String)) (db : DB) : DB :=
  match images with
  | none => db
  | some _ =>
    { db with post_images := db.post_images.map (fun im =>
        if im.post_id == some pid then { im with post_id := none } else im) }

/-- update_post (post.py lines 189-232).  Primary-key lookup, 404 if
absent, 403 if the actor is not the author.  If any `updatePostCrash`
condition holds the flush raises and the store is unchanged.  Otherwise:
scalar fields are copied when not None and updated_at is stamped
explicitly (a pointwise UPDATE of the row with this primary key); the
tags branch changes nothing (the no-crash condition means the post had no
PostTag row and no supplied id matched a tag); the images branch orphans
the old PostImage rows per `orphanPostImages`. -/
def update_post (post_id : Nat) (post : PostUpdate) (uid : Nat) (now : Nat)
    (db : DB) : DB × Except Err PostRow :=
  match findPost db post_id with
  | none => (db, Except.error Err.notFound)
  | some post_instance =>
    if post_instance.user_id != uid then (db, Except.error Err.forbidden)
    else if updatePostCrash post_id post db then (db, Except.error Err.internalError)
    else
      (orphanPostImages post_id post.images
        { db with posts :=
            db.posts.map (fun p => if p.id == post_id then updatePostFields post now p else p) },
       Except.ok (updatePostFields post now post_instance))

/-- delete_post (post.py lines 236-251).  Looks the post up by id and
owner (404 otherwise), explicitly deletes the PostTag rows
(query.delete, synchronized into the session), then runs
db.delete(post).  Post.comments/likes/images have no delete cascade, so
the ORM de-associates the loaded children by nulling their post_id: for
any Comment or Like row that UPDATE fires the bare onupdate=datetime and
raises TypeError — the whole transaction, the PostTag delete included,
rolls back (HTTP 500).  Without comments and likes the delete succeeds:
PostTag rows removed, PostImage rows orphaned with post_id NULL (not
removed), the post row deleted; the declared ondelete=CASCADE never
fires because nothing references the post at DELETE time. -/
def delete_post (post_id : Nat) (uid : Nat) (db : DB) : DB × Except Err Unit :=
  match db.posts.find? (fun p => p.id == post_id && p.user_id == uid) with
  | none => (db, Except.error Err.notFound)
  | some post =>
    if db.comments.any (fun c => c.post_id == post.id) ||
       db.likes.any (fun l => l.post_id == post.id) then
      (db, Except.error Err.internalError)
    else
      ({ db with
          posts := db.posts.filter (fun p => !(p.id == post.id)),
          post_tags := db.post_tags.filter (fun pt => !(pt.post_id == post.id)),
          post_images := db.post_images.map (fun im =>
            if im.post_id == some post.id then { im with post_id := none } else im) },
       Except.ok ())

/-- publish_post (post.py lines 255-266).  Sets the publish flag and
timestamp explicitly; updated_at is stamped by Post.updated_at's
onupdate=datetime.utcnow (a proper callable) on the UPDATE. -/
def publish_post (post_id : Nat) (uid : Nat) (now : Nat) (db : DB) :
    DB × Except Err PostRow :=
  match db.posts.find? (fun p => p.id == post_id && p.user_id == uid) with
  | none => (db, Except.error Err.notFound)
  | some post =>
    let p1 := { post with is_published := true, published_at := some now, updated_at := now }
    ({ db with posts := db.posts.map (fun p => if p.id == post.id then { p with is_published := true, published_at := some now, updated_at := now } else p) },
     Except.ok p1)

/-- unpublish_post (post.py lines 270-281).  As publish_post, clearing
the flag and timestamp. -/
def unpublish_post (post_id : Nat) (uid : Nat) (now : Nat) (db : DB) :
    DB × Except Err PostRow :=
  match db.posts.find? (fun p => p.id == post_id && p.user_id == uid) with
  | none => (db, Except.error Err.notFound)
  | some post =>
    let p1 := { post with is_published := false, published_at := none, updated_at := now }
    ({ db with posts := db.posts.map (fun p => if p.id == post.id then { p with is_published := false, published_at := none, updated_at := now } else p) },
     Except.ok p1)

/-- like_post (post.py lines 285-296).  404 if the post is absent.  The
handler then runs `post.likes.append(user)`: it appends the User ORM
object itself to `Post.likes`, a collection of Like rows, and performs no
duplicate check whatsoever.  No Like row is or can be constructed from a
User this way; the ORM rejects the foreign object when flushing the
session (FlushError), an unhandled exception.  The `likes` table is never
written. -/
def like_post (post_id : Nat) (uid : Nat) (db : DB) : DB × Except Err PostRow :=
  match findPost db post_id with
  | none => (db, Except.error Err.notFound)
  | some _ => (db, Except.error Err.internalError)

/-- unlike_post (post.py lines 300-311).  404 if the post is absent.  The
handler then runs `post.likes.remove(user)`: the User object is never an
element of the Like collection, so `list.remove` raises ValueError, an
unhandled exception.  The `likes` table is never written. -/
def unlike_post (post_id : Nat) (uid : Nat) (db : DB) : DB × Except Err PostRow :=
  match findPost db post_id with
  | none => (db, Except.error Err.notFound)
  | some _ => (db, Except.error Err.internalError)

/-- create_tag (tag.py lines 54-60): unconditional insert. -/
def create_tag (name : String) (uid : Nat) (db : DB) : DB × Except Err TagRow :=
  let new_tag : TagRow := { id := db.next_id, name := name, user_id := uid }
  ({ db with tags := db.tags ++ [new_tag], next_id := db.next_id + 1 },
   Except.ok new_tag)

/-- The mutating operations of comment.py and post.py (plus create_tag,
used to build states).  The remaining handlers of the repository are pure
reads or touch only the tags/categories/users tables and never write the
comments table. -/
inductive Op where
  | createComment (post_id : Nat) (c : CommentCreate) (uid now : Nat)
  | replyToComment (comment_id : Nat) (c : CommentCreate) (uid now : Nat)
  | updateComment (comment_id : Nat) (u : CommentUpdate) (uid now : Nat)
  | deleteComment (comment_id uid : Nat)
  | likeComment (comment_id uid now : Nat)
  | unlikeComment (comment_id uid : Nat)
  | createPost (r : PostCreate) (uid now : Nat)
  | updatePost (post_id : Nat) (u : PostUpdate) (uid now : Nat)
  | deletePost (post_id uid : Nat)
  | publishPost (post_id uid now : Nat)
  | unpublishPost (post_id uid now : Nat)
  | likePost (post_id uid : Nat)
  | unlikePost (post_id uid : Nat)
  | createTag (name : String) (uid : Nat)
deriving Repr

/-- State reached after running one operation (the store returned whether
the handler succeeded or raised). -/
def applyOp : Op → DB → DB
  | Op.createComment pid c uid now, db => (create_comment_for_post pid c uid now db).1
  | Op.replyToComment cid c uid now, db => (reply_to_comment cid c uid now db).1
  | Op.updateComment cid u uid now, db => (update_comment cid u uid now db).1
  | Op.deleteComment cid uid, db => (delete_comment cid uid db).1
  | Op.likeComment cid uid now, db => (like_comment cid uid now db).1
  | Op.unlikeComment cid uid, db => (unlike_comment cid uid db).1
  | Op.createPost r uid now, db => (create_post r uid now db).1
  | Op.updatePost pid u uid now, db => (update_post pid u uid now db).1
  | Op.deletePost pid uid, db => (delete_post pid uid db).1
  | Op.publishPost pid uid now, db => (publish_post pid uid now db).1
  | Op.unpublishPost pid uid now, db => (unpublish_post pid uid now db).1
  | Op.likePost pid uid, db => (like_post pid uid db).1
  | Op.unlikePost pid uid, db => (unlike_post pid uid db).1
  | Op.createTag name uid, db => (create_tag name uid db).1

/-- A comment satisfies the parent invariant relative to a comment table:
its parent_id is NULL or is the id of a comment of the same post. -/
def parentOk (cs : List CommentRow) (c : CommentRow) : Bool :=
  match c.parent_id with
  | none => true
  | some p => cs.any (fun c2 => c2.id == p && c2.post_id == c.post_id)

/-- Spec invariant: every comment's parent_id is NULL or references an
existing comment with the same post_id. -/
def parentInv (db : DB) : Prop :=
  ∀ c ∈ db.comments, parentOk db.comments c = true

instance (db : DB) : Decidable (parentInv db) := by
  unfold parentInv; infer_instance


theorem countP_le_of_imp {l : List CommentRow} {p q : CommentRow → Bool}
    (hpq : ∀ c ∈ l, p c = true → q c = true) : l.countP p ≤ l.countP q := by
  induction l with
  | nil => simp
  | cons a l ih =>
    have hl : l.countP p ≤ l.countP q :=
      ih (fun c hc => hpq c (List.mem_cons_of_mem a hc))
    have ha : p a = true → q a = true := hpq a (List.mem_cons_self a l)
    rw [List.countP_cons, List.countP_cons]
    cases hpa : p a with
    | true => rw [ha hpa]; simp only [if_true]; omega
    | false => simp only [Bool.false_eq_true, if_false]; split <;> omega

theorem countP_lt_of_flip {l : List CommentRow} {p q : CommentRow → Bool}
    (hpq : ∀ c ∈ l, p c = true → q c = true) (c0 : CommentRow) (h0 : c0 ∈ l)
    (hp : p c0 = false) (hq : q c0 = true) :
    l.countP p < l.countP q := by
  induction l with
  | nil => cases h0
  | cons a l ih =>
    rw [List.countP_cons, List.countP_cons]
    rcases List.mem_cons.mp h0 with rfl | h0
    · have hl : l.countP p ≤ l.countP q :=
        countP_le_of_imp (fun c hc => hpq c (List.mem_cons_of_mem c0 hc))
      rw [hp, hq]
      simp only [Bool.false_eq_true, if_false, if_true]
      omega
    · have hl := ih (fun c hc => hpq c (List.mem_cons_of_mem a hc)) h0
      have ha : p a = true → q a = true := hpq a (List.mem_cons_self a l)
      cases hpa : p a with
      | true => rw [ha hpa]; simp only [if_true]; omega
      | false => simp only [Bool.false_eq_true, if_false]; split <;> omega

/-- A function whose every non-fixed application strictly increases a
bounded measure reaches a fixed point within bound + 1 iterations. -/
theorem iterate_hits_fixpoint {α : Type} (f : α → α) (m : α → Nat) (B : Nat)
    (hincr : ∀ a, f a ≠ a → m a < m (f a))
    (hbound : ∀ a, m a ≤ B) (a : α) :
    f (f^[B + 1] a) = f^[B + 1] a := by
  by_contra hne
  have hnofix : ∀ n, n ≤ B + 1 → f (f^[n] a) ≠ f^[n] a := by
    intro n hn hfx
    apply hne
    have h1 : f^[B + 1] a = f^[(B + 1 - n) + n] a := by
      rw [Nat.sub_add_cancel hn]
    rw [h1, Function.iterate_add_apply, Function.iterate_fixed hfx]
    exact hfx
  have key : ∀ k, k ≤ B + 2 → k ≤ m (f^[k] a) := by
    intro k
    induction k with
    | zero => intro _; exact Nat.zero_le _
    | succ n ih =>
      intro hk
      have h1 : n ≤ m (f^[n] a) := ih (by omega)
      have h2 := hincr _ (hnofix n (by omega))
      rw [Function.iterate_succ_apply']
      omega
  have hk := key (B + 2) (le_refl _)
  have hb := hbound (f^[B + 2] a)
  omega

theorem mem_iterate_delStep (cs : List CommentRow) (n : Nat) (L : List Nat)
    (x : Nat) (hx : x ∈ L) : x ∈ (delStep cs)^[n] L := by
  induction n with
  | zero => exact hx
  | succ k ih =>
    rw [Function.iterate_succ_apply']
    exact List.mem_append_left _ ih

/-- The cascade set is a fixed point of the saturation step. -/
theorem cascadeSet_fix (cs : List CommentRow) (root : Nat) :
    delStep cs (cascadeSet cs root) = cascadeSet cs root := by
  unfold cascadeSet
  apply iterate_hits_fixpoint (delStep cs)
    (fun S => cs.countP (fun c => S.contains c.id)) cs.length
  · intro S hne
    have hA : commentChildrenOf cs S ≠ [] := by
      intro h
      apply hne
      unfold delStep
      rw [h, List.append_nil]
    rcases List.exists_mem_of_ne_nil _ hA with ⟨x, hx⟩
    unfold commentChildrenOf at hx
    rcases List.mem_map.mp hx with ⟨c0, hc0, rfl⟩
    have hc0cs := (List.mem_filter.mp hc0).1
    have hc0pred := (List.mem_filter.mp hc0).2
    rw [Bool.and_eq_true] at hc0pred
    have hnotin := hc0pred.1
    rw [Bool.not_eq_true'] at hnotin
    apply countP_lt_of_flip
      (fun c _ hpc => by
        unfold delStep
        have hmem : c.id ∈ S := List.elem_iff.mp hpc
        exact List.elem_iff.mpr (List.mem_append_left _ hmem))
      c0 hc0cs hnotin
    apply List.elem_iff.mpr
    unfold delStep
    apply List.mem_append_right
    unfold commentChildrenOf
    exact List.mem_map_of_mem _ hc0
  · intro S
    exact List.countP_le_length _

/-- The cascade set is downward closed: a comment whose parent is being
deleted is itself deleted. -/
theorem cascadeSet_closed (cs : List CommentRow) (root : Nat) (c : CommentRow)
    (hc : c ∈ cs) (p : Nat) (hp : c.parent_id = some p)
    (hmem : (cascadeSet cs root).contains p = true) :
    (cascadeSet cs root).contains c.id = true := by
  by_contra hnc
  have hnc2 : (cascadeSet cs root).contains c.id = false :=
    Bool.eq_false_iff.mpr hnc
  have hfix := cascadeSet_fix cs root
  have hA : commentChildrenOf cs (cascadeSet cs root) = [] := by
    unfold delStep at hfix
    have hlen := congrArg List.length hfix
    simp at hlen
    exact hlen
  unfold commentChildrenOf at hA
  have hfilter := List.map_eq_nil_iff.mp hA
  have hnotpred := List.filter_eq_nil_iff.mp hfilter c hc
  apply hnotpred
  rw [hnc2, hp]
  simp
  exact List.elem_iff.mp hmem

/-- Root belongs to its own cascade set. -/
theorem root_mem_cascadeSet (cs : List CommentRow) (root : Nat) :
    (cascadeSet cs root).contains root = true := by
  apply List.elem_iff.mpr
  exact mem_iterate_delStep cs _ [root] root (List.mem_singleton.mpr rfl)

/-- The parent invariant stated over a bare comment table. -/
def parentInvL (cs : List CommentRow) : Prop :=
  ∀ c ∈ cs, parentOk cs c = true

theorem parentInv_def (db : DB) : parentInv db ↔ parentInvL db.comments :=
  Iff.rfl

theorem parentOk_none (cs : List CommentRow) (c : CommentRow)
    (h : c.parent_id = none) : parentOk cs c = true := by
  unfold parentOk
  rw [h]

theorem parentOk_some (cs : List CommentRow) (c : CommentRow) (p : Nat)
    (h : c.parent_id = some p) :
    parentOk cs c = cs.any (fun c2 => c2.id == p && c2.post_id == c.post_id) := by
  unfold parentOk
  rw [h]

theorem parentOk_append (cs ds : List CommentRow) (c : CommentRow)
    (h : parentOk cs c = true) : parentOk (cs ++ ds) c = true := by
  cases hpar : c.parent_id with
  | none => exact parentOk_none _ _ hpar
  | some p =>
    rw [parentOk_some _ _ _ hpar] at h ⊢
    rw [List.any_append, h]
    rfl

theorem parentInvL_append_new (cs : List CommentRow) (n : CommentRow)
    (hinv : parentInvL cs) (hn : parentOk (cs ++ [n]) n = true) :
    parentInvL (cs ++ [n]) := by
  intro c hc
  rcases List.mem_append.mp hc with h | h
  · exact parentOk_append _ _ _ (hinv c h)
  · rw [List.mem_singleton.mp h]
    exact hn

theorem parentInvL_map (cs : List CommentRow) (f : CommentRow → CommentRow)
    (hid : ∀ c, (f c).id = c.id)
    (hpar : ∀ c, (f c).parent_id = c.parent_id)
    (hpost : ∀ c, (f c).post_id = c.post_id)
    (hinv : parentInvL cs) : parentInvL (cs.map f) := by
  intro c1 hc1
  rcases List.mem_map.mp hc1 with ⟨c, hc, rfl⟩
  cases hp : c.parent_id with
  | none =>
    apply parentOk_none
    rw [hpar, hp]
  | some p =>
    rw [parentOk_some _ _ p (by rw [hpar, hp])]
    have h := hinv c hc
    rw [parentOk_some _ _ _ hp] at h
    rcases List.any_eq_true.mp h with ⟨c2, hc2, hpred⟩
    apply List.any_eq_true.mpr
    refine ⟨f c2, List.mem_map_of_mem f hc2, ?_⟩
    rw [hid, hpost, hpost]
    exact hpred

theorem parentInvL_filter (cs : List CommentRow) (keep : CommentRow → Bool)
    (hinv : parentInvL cs)
    (H : ∀ c ∈ cs, ∀ p, c.parent_id = some p → keep c = true →
         ∀ c2 ∈ cs, c2.id = p → c2.post_id = c.post_id → keep c2 = true) :
    parentInvL (cs.filter keep) := by
  intro c hc
  have hcs := (List.mem_filter.mp hc).1
  have hkeep := (List.mem_filter.mp hc).2
  cases hp : c.parent_id with
  | none => exact parentOk_none _ _ hp
  | some p =>
    rw [parentOk_some _ _ _ hp]
    have h := hinv c hcs
    rw [parentOk_some _ _ _ hp] at h
    rcases List.any_eq_true.mp h with ⟨c2, hc2, hpred⟩
    have hpred2 := hpred
    rw [Bool.and_eq_true] at hpred2
    have h1n : c2.id = p := beq_iff_eq.mp hpred2.1
    have h2n : c2.post_id = c.post_id := beq_iff_eq.mp hpred2.2
    have hk2 := H c hcs p hp hkeep c2 hc2 h1n h2n
    apply List.any_eq_true.mpr
    exact ⟨c2, List.mem_filter.mpr ⟨hc2, hk2⟩, hpred⟩


theorem parentInv_of_comments (db2 : DB) (cs : List CommentRow)
    (h : db2.comments = cs) (hinv : parentInvL cs) : parentInv db2 := by
  intro c hc
  rw [h] at hc ⊢
  exact hinv c hc

theorem not_eq_true_of_eq_false {b : Bool} (h : b = false) : ¬ b = true := by
  rw [h]
  exact Bool.false_ne_true

theorem applyContentUpdate_fields (upd : CommentUpdate) (now : Nat) (c : CommentRow) :
    (applyContentUpdate upd now c).id = c.id ∧
    (applyContentUpdate upd now c).parent_id = c.parent_id ∧
    (applyContentUpdate upd now c).post_id = c.post_id ∧
    (applyContentUpdate upd now c).user_id = c.user_id := by
  rcases h : upd.content with _ | s
  · simp [applyContentUpdate, h]
  · by_cases hs : (s == "") = true <;> simp [applyContentUpdate, h, hs]

theorem findComment_mem (db : DB) (cid : Nat) (c : CommentRow)
    (h : findComment db cid = some c) : c ∈ db.comments :=
  List.mem_of_find?_eq_some h

theorem findComment_id (db : DB) (cid : Nat) (c : CommentRow)
    (h : findComment db cid = some c) : c.id = cid := by
  have h2 : db.comments.find? (fun c => c.id == cid) = some c := h
  have h3 := List.find?_some h2
  exact beq_iff_eq.mp h3

theorem findPost_mem (db : DB) (pid : Nat) (p : PostRow)
    (h : findPost db pid = some p) : p ∈ db.posts :=
  List.mem_of_find?_eq_some h

theorem findPost_id (db : DB) (pid : Nat) (p : PostRow)
    (h : findPost db pid = some p) : p.id = pid := by
  have h2 : db.posts.find? (fun p => p.id == pid) = some p := h
  have h3 := List.find?_some h2
  exact beq_iff_eq.mp h3

theorem findPostOwned_id (db : DB) (pid uid : Nat) (p : PostRow)
    (h : db.posts.find? (fun p => p.id == pid && p.user_id == uid) = some p) :
    p.id = pid ∧ p.user_id = uid := by
  have h2 := List.find?_some h
  have h3 : (p.id == pid && p.user_id == uid) = true := h2
  rw [Bool.and_eq_true] at h3
  exact ⟨beq_iff_eq.mp h3.1, beq_iff_eq.mp h3.2⟩

theorem orphanPostImages_comments (pid : Nat) (images : Option (List String)) (db : DB) :
    (orphanPostImages pid images db).comments = db.comments := by
  rcases images with _ | urls <;> rfl

theorem orphanPostImages_post_tags (pid : Nat) (images : Option (List String)) (db : DB) :
    (orphanPostImages pid images db).post_tags = db.post_tags := by
  rcases images with _ | urls <;> rfl

theorem like_comment_comments (cid uid now : Nat) (db : DB) :
    (like_comment cid uid now db).1.comments = db.comments := by
  rcases hfind : findComment db cid with _ | c
  · simp only [like_comment, hfind]
  · simp only [like_comment, hfind]
    split <;> rfl

theorem unlike_comment_comments (cid uid : Nat) (db : DB) :
    (unlike_comment cid uid db).1.comments = db.comments := by
  rcases hfind : findComment db cid with _ | c
  · simp only [unlike_comment, hfind]
  · rcases hlike : db.comment_likes.find? (fun l => l.comment_id == cid && l.user_id == uid) with _ | l
    · simp only [unlike_comment, hfind, hlike]
    · simp only [unlike_comment, hfind, hlike]

theorem create_post_comments (r : PostCreate) (uid now : Nat) (db : DB) :
    (create_post r uid now db).1.comments = db.comments := by
  rw [create_post]
  split
  · rfl
  · split
    · rfl
    · rfl

theorem update_post_comments (pid : Nat) (u : PostUpdate) (uid now : Nat) (db : DB) :
    (update_post pid u uid now db).1.comments = db.comments := by
  rcases hfind : findPost db pid with _ | p
  · simp only [update_post, hfind]
  · simp only [update_post, hfind]
    split
    · rfl
    · split
      · rfl
      · rw [orphanPostImages_comments]

theorem delete_post_comments (pid uid : Nat) (db : DB) :
    (delete_post pid uid db).1.comments = db.comments := by
  rcases hfind : db.posts.find? (fun p => p.id == pid && p.user_id == uid) with _ | post
  · simp only [delete_post, hfind]
  · simp only [delete_post, hfind]
    split <;> rfl

theorem publish_post_comments (pid uid now : Nat) (db : DB) :
    (publish_post pid uid now db).1.comments = db.comments := by
  rcases hfind : db.posts.find? (fun p => p.id == pid && p.user_id == uid) with _ | p
  · simp only [publish_post, hfind]
  · simp only [publish_post, hfind]

theorem unpublish_post_comments (pid uid now : Nat) (db : DB) :
    (unpublish_post pid uid now db).1.comments = db.comments := by
  rcases hfind : db.posts.find? (fun p => p.id == pid && p.user_id == uid) with _ | p
  · simp only [unpublish_post, hfind]
  · simp only [unpublish_post, hfind]

theorem like_post_comments (pid uid : Nat) (db : DB) :
    (like_post pid uid db).1.comments = db.comments := by
  rcases hfind : findPost db pid with _ | p
  · simp only [like_post, hfind]
  · simp only [like_post, hfind]

theorem unlike_post_comments (pid uid : Nat) (db : DB) :
    (unlike_post pid uid db).1.comments = db.comments := by
  rcases hfind : findPost db pid with _ | p
  · simp only [unlike_post, hfind]
  · simp only [unlike_post, hfind]

/-- Every modelled operation preserves the parent invariant. -/
theorem applyOp_parentInv (op : Op) (db : DB) (h : parentInv db) :
    parentInv (applyOp op db) := by
  cases op with
  | createComment pid cc uid now =>
    rcases hfind : findPost db pid with _ | p
    · simpa only [applyOp, create_comment_for_post, hfind] using h
    · simp only [applyOp, create_comment_for_post, hfind]
      exact parentInvL_append_new db.comments _ h (parentOk_none _ _ rfl)
  | replyToComment cid cc uid now =>
    rcases hfind : findComment db cid with _ | parent
    · simpa only [applyOp, reply_to_comment, hfind] using h
    · rcases hpost : findPost db parent.post_id with _ | p
      · simpa only [applyOp, reply_to_comment, hfind, hpost] using h
      · simp only [applyOp, reply_to_comment, hfind, hpost]
        apply parentInvL_append_new _ _ h
        rw [parentOk_some _ _ cid rfl]
        apply List.any_eq_true.mpr
        refine ⟨parent, List.mem_append_left _ (findComment_mem db cid parent hfind), ?_⟩
        rw [Bool.and_eq_true]
        exact ⟨beq_iff_eq.mpr (findComment_id db cid parent hfind), beq_self_eq_true _⟩
  | updateComment cid upd uid now =>
    rcases hfind : findComment db cid with _ | comment
    · simpa only [applyOp, update_comment, hfind] using h
    · simp only [applyOp, update_comment, hfind]
      by_cases hauth : (comment.user_id != uid) = true
      · rw [if_pos hauth]
        exact h
      · rw [if_neg hauth]
        by_cases himg : (!upd.images.isEmpty) = true
        · rw [if_pos himg]
          exact h
        · rw [if_neg himg]
          apply parentInv_of_comments _
            (db.comments.map (fun c => if c.id == cid then applyContentUpdate upd now c else c)) rfl
          apply parentInvL_map _ _ _ _ _ h
          · intro c
            split
            · exact (applyContentUpdate_fields upd now c).1
            · rfl
          · intro c
            split
            · exact (applyContentUpdate_fields upd now c).2.1
            · rfl
          · intro c
            split
            · exact (applyContentUpdate_fields upd now c).2.2.1
            · rfl
  | deleteComment cid uid =>
    rcases hfind : findComment db cid with _ | comment
    · simpa only [applyOp, delete_comment, hfind] using h
    · simp only [applyOp, delete_comment, hfind]
      by_cases hauth : (comment.user_id != uid) = true
      · rw [if_pos hauth]
        exact h
      · rw [if_neg hauth]
        apply parentInv_of_comments _
          (db.comments.filter (fun c => !((cascadeSet db.comments cid).contains c.id))) rfl
        apply parentInvL_filter _ _ h
        intro c hc p hp hkeep c2 hc2 hid2 hpost2
        rw [Bool.not_eq_true'] at hkeep ⊢
        cases hc2in : (cascadeSet db.comments cid).contains c2.id with
        | false => rfl
        | true =>
          rw [hid2] at hc2in
          rw [cascadeSet_closed db.comments cid c hc p hp hc2in] at hkeep
          cases hkeep
  | likeComment cid uid now =>
    exact parentInv_of_comments _ db.comments (like_comment_comments cid uid now db) h
  | unlikeComment cid uid =>
    exact parentInv_of_comments _ db.comments (unlike_comment_comments cid uid db) h
  | createPost r uid now =>
    exact parentInv_of_comments _ db.comments (create_post_comments r uid now db) h
  | updatePost pid u uid now =>
    exact parentInv_of_comments _ db.comments (update_post_comments pid u uid now db) h
  | deletePost pid uid =>
    exact parentInv_of_comments _ db.comments (delete_post_comments pid uid db) h
  | publishPost pid uid now =>
    exact parentInv_of_comments _ db.comments (publish_post_comments pid uid now db) h
  | unpublishPost pid uid now =>
    exact parentInv_of_comments _ db.comments (unpublish_post_comments pid uid now db) h
  | likePost pid uid =>
    exact parentInv_of_comments _ db.comments (like_post_comments pid uid db) h
  | unlikePost pid uid =>
    exact parentInv_of_comments _ db.comments (unlike_post_comments pid uid db) h
  | createTag name uid =>
    exact parentInv_of_comments _ db.comments rfl h

/-- Example post (id 1, author 1) for concrete instances. -/
def exPost : PostRow :=
  { id := 1, title := "t", content := "b", category_id := none, user_id := 1,
    is_published := false, published_at := none, slug := some "t",
    created_at := 0, updated_at := 0 }

/-- Example store: one post, one tag association, a comment (id 2) with
one reply (id 3). -/
def exDB : DB :=
  { posts := [exPost],
    tags := [{ id := 10, name := "x", user_id := 1 }],
    post_tags := [{ post_id := 1, tag_id := 10 }],
    comments :=
      [{ id := 2, post_id := 1, user_id := 5, parent_id := none, content := "hi",
         created_at := 10, updated_at := 10 },
       { id := 3, post_id := 1, user_id := 6, parent_id := some 2, content := "yo",
         created_at := 11, updated_at := 11 }],
    comment_likes := [], likes := [], post_images := [], comment_images := [],
    next_id := 20 }

/-- Request body used in the C1 witness reply. -/
def exReply : CommentCreate := { post_id := 1, content := "r" }

/-- The comment the C1 witness reply creates. -/
def exReplyNew : CommentRow :=
  { id := 20, post_id := 1, user_id := 9, parent_id := some 2, content := "r",
    created_at := 50, updated_at := 50 }

/-- C1: for every comment in the store, parent_id is null or references an
existing comment with the same post_id; this invariant is preserved by
every modelled mutating operation, and every comment created by
reply_to_comment has post_id equal to its parent comment's post_id. -/
theorem C1_parent_invariant :
    (∀ (op : Op) (db : DB), parentInv db → parentInv (applyOp op db)) ∧
    (∀ (cid : Nat) (cc : CommentCreate) (uid now : Nat) (db db2 : DB) (newc : CommentRow),
       reply_to_comment cid cc uid now db = (db2, Except.ok newc) →
       ∃ parent ∈ db.comments, parent.id = cid ∧ newc.post_id = parent.post_id ∧
         newc.parent_id = some cid) := by
  refine ⟨applyOp_parentInv, ?_⟩
  intro cid cc uid now db db2 newc heq
  rcases hfind : findComment db cid with _ | parent
  · simp only [reply_to_comment, hfind] at heq
    simp [Prod.ext_iff] at heq
  · rcases hpost : findPost db parent.post_id with _ | p
    · simp only [reply_to_comment, hfind, hpost] at heq
      simp [Prod.ext_iff] at heq
    · simp only [reply_to_comment, hfind, hpost] at heq
      have hsnd := congrArg Prod.snd heq
      have hnew : ({ id := db.next_id, post_id := parent.post_id, user_id := uid,
                     parent_id := some cid, content := cc.content,
                     created_at := now, updated_at := now } : CommentRow) = newc := by
        injection hsnd
      refine ⟨parent, findComment_mem db cid parent hfind,
              findComment_id db cid parent hfind, ?_, ?_⟩
      · rw [← hnew]
      · rw [← hnew]

/-- Witness for C1 at a concrete store: the invariant holds of exDB and
is preserved by deleting comment 2 (which cascades to its reply), and a
concrete reply carries its parent's post_id. -/
theorem C1_parent_invariant_witness :
    parentInv (applyOp (Op.deleteComment 2 5) exDB) ∧
    (∃ parent ∈ exDB.comments, parent.id = 2 ∧ exReplyNew.post_id = parent.post_id ∧
       exReplyNew.parent_id = some 2) :=
  ⟨C1_parent_invariant.1 (Op.deleteComment 2 5) exDB (by decide),
   C1_parent_invariant.2 2 exReply 9 50 exDB
     (reply_to_comment 2 exReply 9 50 exDB).1 exReplyNew rfl⟩

/-- Store with no posts at all, used by the C2 counterexample. -/
def exDBnoPost : DB := { next_id := 7 }

/-- C2 counterexample: the claim says createComment fails with NotFound
when the post does not exist; the handler has no such check, and under
the foreign-key-enforcing store the phantom-post insert dies as an
unhandled IntegrityError (HTTP 500), a different error kind (no comment
row is created). -/
theorem C2_counterexample :
    exDBnoPost.posts = [] ∧
    create_comment_for_post 1 { post_id := 1, content := "hi" } 4 9 exDBnoPost =
      (exDBnoPost, Except.error Err.internalError) ∧
    Err.internalError ≠ Err.notFound :=
  ⟨rfl, rfl, by decide⟩

/-- C2 amended: create_comment_for_post performs no existence check and
has no NotFound branch: when the post is absent the commit violates the
comments.post_id foreign key and fails as an unhandled IntegrityError
(HTTP 500) with no comment row created; when the post exists it appends
exactly one comment row carrying the path parameter as its post_id. -/
theorem C2_amended :
    (∀ (post_id : Nat) (cc : CommentCreate) (uid now : Nat) (db : DB),
       findPost db post_id = none →
       create_comment_for_post post_id cc uid now db = (db, Except.error Err.internalError)) ∧
    (∀ (post_id : Nat) (cc : CommentCreate) (uid now : Nat) (db : DB) (p : PostRow),
       findPost db post_id = some p →
       ∃ newc : CommentRow,
         create_comment_for_post post_id cc uid now db =
           ({ db with comments := db.comments ++ [newc], next_id := db.next_id + 1 },
            Except.ok newc) ∧
         newc.post_id = post_id) := by
  constructor
  · intro pid cc uid now db hfind
    simp only [create_comment_for_post, hfind]
  · intro pid cc uid now db p hfind
    refine ⟨{ id := db.next_id, post_id := pid, user_id := uid, parent_id := none,
              content := cc.content, created_at := now, updated_at := now }, ?_, rfl⟩
    simp only [create_comment_for_post, hfind]

/-- Witness for C2: on the empty store the insert crashes; on exDB (post
1 exists) it succeeds. -/
theorem C2_amended_witness :
    create_comment_for_post 1 { post_id := 1, content := "hi" } 4 9 exDBnoPost =
      (exDBnoPost, Except.error Err.internalError) ∧
    (∃ newc : CommentRow,
       create_comment_for_post 1 { post_id := 1, content := "hi" } 4 9 exDB =
         ({ exDB with comments := exDB.comments ++ [newc], next_id := exDB.next_id + 1 },
          Except.ok newc) ∧
       newc.post_id = 1) :=
  ⟨C2_amended.1 1 { post_id := 1, content := "hi" } 4 9 exDBnoPost rfl,
   C2_amended.2 1 { post_id := 1, content := "hi" } 4 9 exDB exPost rfl⟩

/-- C3: like_comment can never insert a CommentLike row: after the
existence and duplicate checks pass, the handler commits a CommentLike
whose created_at/updated_at default to the bare datetime class, raising
TypeError at flush (unhandled, HTTP 500) with the store unchanged — the
claim's first-add-succeeds/second-add-Conflict scenario is unachievable. -/
theorem C3_like_comment_crashes (db : DB) (cid uid now : Nat) (c : CommentRow)
    (hex : findComment db cid = some c)
    (h0 : db.comment_likes.find? (fun l => l.comment_id == cid && l.user_id == uid) = none) :
    like_comment cid uid now db = (db, Except.error Err.internalError) := by
  simp only [like_comment, hex, h0, Option.isSome_none, Bool.false_eq_true, if_false]

/-- Witness for C3 at exDB: user 9's first like of comment 2 yields the
unhandled TypeError and creates nothing. -/
theorem C3_like_comment_crashes_witness :
    like_comment 2 9 30 exDB = (exDB, Except.error Err.internalError) :=
  C3_like_comment_crashes exDB 2 9 30
    { id := 2, post_id := 1, user_id := 5, parent_id := none, content := "hi",
      created_at := 10, updated_at := 10 } rfl rfl

/-- C4: like_post on an existing post always ends in an unhandled ORM
error: `post.likes.append(user)` puts the User object itself into the
collection of Like rows (no Like row is built, and there is no duplicate
check), which the session flush rejects; unlike_post's
`post.likes.remove(user)` likewise raises.  The likes table is returned
unchanged, so the add/Conflict/count scenario of the claim cannot occur. -/
theorem C4_like_post_crashes (db : DB) (pid uid : Nat) (p : PostRow)
    (hex : findPost db pid = some p) :
    like_post pid uid db = (db, Except.error Err.internalError) ∧
    unlike_post pid uid db = (db, Except.error Err.internalError) := by
  constructor
  · simp only [like_post, hex]
  · simp only [unlike_post, hex]

/-- Witness for C4 at the concrete store exDB (post 1, user 2). -/
theorem C4_like_post_crashes_witness :
    like_post 1 2 exDB = (exDB, Except.error Err.internalError) ∧
    unlike_post 1 2 exDB = (exDB, Except.error Err.internalError) :=
  C4_like_post_crashes exDB 1 2 exPost rfl

/-- Comment used by the C5 counterexample: content "hi", updated_at 10. -/
def exComment5 : CommentRow :=
  { id := 1, post_id := 1, user_id := 5, parent_id := none, content := "hi",
    created_at := 10, updated_at := 10 }

/-- Store holding only exComment5. -/
def exDB5 : DB := { comments := [exComment5], next_id := 2 }

/-- C5 counterexample: the author resubmits the identical content "hi";
the claim says updated_at stays 10 since nothing changes, but the handler
stamps it to the current time 99. -/
theorem C5_counterexample :
    exComment5.content = "hi" ∧ exComment5.updated_at = 10 ∧
    (update_comment 1 { content := some "hi" } 5 99 exDB5).2 =
      Except.ok { id := 1, post_id := 1, user_id := 5, parent_id := none,
                  content := "hi", created_at := 10, updated_at := 99 } :=
  ⟨rfl, rfl, rfl⟩

/-- C5 amended: when the request carries no images, update_comment stamps
updated_at to the current time exactly when a non-empty content is
supplied — whether or not it differs from the stored content; when a
non-empty images list is supplied the handler crashes inserting the
CommentImage rows (bare datetime default, TypeError, HTTP 500) and the
whole update — the content change included — rolls back, updated_at
unchanged. -/
theorem C5_amended (db : DB) (cid uid now : Nat) (upd : CommentUpdate) (c : CommentRow)
    (hfind : findComment db cid = some c) (hauth : c.user_id = uid) :
    (upd.images = [] →
       (update_comment cid upd uid now db).2 = Except.ok (applyContentUpdate upd now c) ∧
       (applyContentUpdate upd now c).updated_at =
         (if contentTruthy upd.content then now else c.updated_at)) ∧
    (upd.images ≠ [] →
       update_comment cid upd uid now db = (db, Except.error Err.internalError)) := by
  have hb : (c.user_id != uid) = false := by
    simp [hauth]
  constructor
  · intro himg
    have hempty : (!upd.images.isEmpty) = false := by
      rw [himg]
      rfl
    constructor
    · simp only [update_comment, hfind, if_neg (not_eq_true_of_eq_false hb),
                 if_neg (not_eq_true_of_eq_false hempty)]
    · rcases h : upd.content with _ | s
      · simp [applyContentUpdate, contentTruthy, h]
      · by_cases hs : (s == "") = true
        · simp [applyContentUpdate, contentTruthy, h, hs]
        · simp [applyContentUpdate, contentTruthy, h, hs]
  · intro himg
    have hne : (!upd.images.isEmpty) = true := by
      rcases hl : upd.images with _ | ⟨u, rest⟩
      · exact absurd hl himg
      · rfl
    simp only [update_comment, hfind, if_neg (not_eq_true_of_eq_false hb), if_pos hne]

/-- Witness for C5 at the concrete store exDB5: content "hi" resubmitted
with no images, updated_at becomes 99. -/
theorem C5_amended_witness :
    ((({ content := some "hi" } : CommentUpdate).images = [] →
        (update_comment 1 { content := some "hi" } 5 99 exDB5).2 =
          Except.ok (applyContentUpdate { content := some "hi" } 99 exComment5) ∧
        (applyContentUpdate { content := some "hi" } 99 exComment5).updated_at =
          (if contentTruthy (({ content := some "hi" } : CommentUpdate).content)
           then 99 else exComment5.updated_at)) ∧
     (({ content := some "hi" } : CommentUpdate).images ≠ [] →
        update_comment 1 { content := some "hi" } 5 99 exDB5 =
          (exDB5, Except.error Err.internalError))) :=
  C5_amended exDB5 1 5 99 { content := some "hi" } exComment5 rfl rfl

/-- C6: for an existing comment and any actor other than its author, both
update_comment and delete_comment return 403 Forbidden with the store
returned unchanged (no comment, image or like row is touched). -/
theorem C6_forbidden_unchanged (db : DB) (cid uid now : Nat) (upd : CommentUpdate)
    (c : CommentRow) (hfind : findComment db cid = some c) (hne : c.user_id ≠ uid) :
    update_comment cid upd uid now db = (db, Except.error Err.forbidden) ∧
    delete_comment cid uid db = (db, Except.error Err.forbidden) := by
  have hb : (c.user_id != uid) = true := by
    simp [hne]
  constructor
  · simp only [update_comment, hfind, if_pos hb]
  · simp only [delete_comment, hfind, if_pos hb]

/-- Witness for C6: user 9 can neither update nor delete comment 2 of
exDB (authored by user 5), and exDB is returned unchanged. -/
theorem C6_forbidden_unchanged_witness :
    update_comment 2 { content := some "zz" } 9 77 exDB = (exDB, Except.error Err.forbidden) ∧
    delete_comment 2 9 exDB = (exDB, Except.error Err.forbidden) :=
  C6_forbidden_unchanged exDB 2 9 77 { content := some "zz" }
    { id := 2, post_id := 1, user_id := 5, parent_id := none, content := "hi",
      created_at := 10, updated_at := 10 } rfl (by decide)

/-- C7: get_comment_likes on an existing comment never returns an integer:
the source runs `likes.count()` on a Python list with no argument, which
raises TypeError (an unhandled exception, HTTP 500). -/
theorem C7_count_crashes (db : DB) (cid : Nat) (c : CommentRow)
    (hfind : findComment db cid = some c) :
    get_comment_likes cid db = (db, Except.error Err.internalError) ∧
    ∀ n : Nat, (get_comment_likes cid db).2 ≠ Except.ok n := by
  have h1 : get_comment_likes cid db = (db, Except.error Err.internalError) := by
    simp only [get_comment_likes, hfind]
  refine ⟨h1, ?_⟩
  intro n hcontra
  rw [h1] at hcontra
  cases hcontra

/-- Witness for C7 at the concrete store exDB (comment 2 exists): the
endpoint yields the unhandled TypeError, not the spec's count 0. -/
theorem C7_count_crashes_witness :
    get_comment_likes 2 exDB = (exDB, Except.error Err.internalError) ∧
    ∀ n : Nat, (get_comment_likes 2 exDB).2 ≠ Except.ok n :=
  C7_count_crashes exDB 2
    { id := 2, post_id := 1, user_id := 5, parent_id := none, content := "hi",
      created_at := 10, updated_at := 10 } rfl

/-- The post of the C8/C10 stores: id 1, owned by user 7. -/
def exPost8 : PostRow :=
  { id := 1, title := "t", content := "b", category_id := none, user_id := 7,
    is_published := false, published_at := none, slug := some "t",
    created_at := 0, updated_at := 0 }

/-- Store for the C8/C10 instances: post 1 owned by user 7, a single tag
(id 10) associated with it. -/
def exDB8 : DB :=
  { posts := [exPost8],
    tags := [{ id := 10, name := "x", user_id := 7 }],
    post_tags := [{ post_id := 1, tag_id := 10 }],
    next_id := 20 }

/-- Update body supplying only the nonexistent tag id 999. -/
def exUpd8 : PostUpdate := { tags := some [999] }

/-- C8 counterexample: no path fails with a NotFound listing the missing
ids.  Creating a post with the missing id 999 yields the generic 400;
updating post 1 (which has a tag association) with tags [999] crashes
with the unhandled blank-out error (HTTP 500), the association left in
place. -/
theorem C8_counterexample :
    (∀ t ∈ exDB8.tags, t.id ≠ 999) ∧
    create_post { title := "t2", content := "c", tags := [999] } 7 50 exDB8 =
      (exDB8, Except.error Err.badRequest) ∧
    update_post 1 exUpd8 7 50 exDB8 = (exDB8, Except.error Err.internalError) ∧
    exDB8.post_tags = [{ post_id := 1, tag_id := 10 }] :=
  ⟨by decide, rfl, rfl, rfl⟩

/-- C8 amended: on post creation, supplying any nonexistent tag id fails
with a generic HTTP 400 ("One or more tags not found.", neither a 404 nor
a message listing the ids), store unchanged.  On post update there is no
id validation and the tag set is never replaced: whenever the post has an
existing association, or any supplied id matches an existing tag, the
flush crashes (blank-out of the PostTag primary key, resp. foreign Tag
objects in the PostTag collection) — an unhandled HTTP 500 that leaves
the associations unchanged. -/
theorem C8_amended :
    (∀ (db : DB) (req : PostCreate) (uid now : Nat),
       req.tags.isEmpty = false →
       (db.tags.filter (fun t => req.tags.contains t.id)).length ≠ req.tags.length →
       create_post req uid now db = (db, Except.error Err.badRequest)) ∧
    (∀ (db : DB) (pid uid now : Nat) (u : PostUpdate) (tagIds : List Nat) (p : PostRow),
       findPost db pid = some p → p.user_id = uid → u.tags = some tagIds →
       ((∃ pt ∈ db.post_tags, pt.post_id = pid) ∨ (∃ t ∈ db.tags, t.id ∈ tagIds)) →
       update_post pid u uid now db = (db, Except.error Err.internalError)) := by
  constructor
  · intro db req uid now hne hlen
    have h1 : (!req.tags.isEmpty) = true := by
      rw [hne]
      rfl
    have h2 : ((db.tags.filter (fun t => req.tags.contains t.id)).length == req.tags.length) = false :=
      beq_eq_false_iff_ne.mpr hlen
    have hcond : (!req.tags.isEmpty &&
        !((db.tags.filter (fun t => req.tags.contains t.id)).length == req.tags.length)) = true := by
      rw [h1, h2]
      rfl
    rw [create_post, if_pos hcond]
  · intro db pid uid now u tagIds p hfind hown htags hsrc
    have hb : (p.user_id != uid) = false := by
      simp [hown]
    have hcrash : updatePostCrash pid u db = true := by
      simp only [updatePostCrash, htags]
      rcases hsrc with ⟨pt, hpt, hpid⟩ | ⟨t, ht, htid⟩
      · have h1 : db.post_tags.any (fun pt => pt.post_id == pid) = true :=
          List.any_eq_true.mpr ⟨pt, hpt, beq_iff_eq.mpr hpid⟩
        rw [h1]
        rfl
      · have h1 : db.tags.filter (fun t2 => tagIds.contains t2.id) ≠ [] := by
          intro hnil
          have hmem : t ∈ db.tags.filter (fun t2 => tagIds.contains t2.id) :=
            List.mem_filter.mpr ⟨ht, List.elem_iff.mpr htid⟩
          rw [hnil] at hmem
          cases hmem
        have h2 : (db.tags.filter (fun t2 => tagIds.contains t2.id)).isEmpty = false := by
          rcases hfil : db.tags.filter (fun t2 => tagIds.contains t2.id) with _ | ⟨a, l⟩
          · exact absurd hfil h1
          · rw [hfil]
            rfl
        rw [h2]
        simp
    simp only [update_post, hfind, if_neg (not_eq_true_of_eq_false hb), if_pos hcrash]

/-- Witness for C8: creating a post with the missing tag id 999 fails
with the generic 400; updating post 1 of exDB8 with the same missing id
crashes with the 500, both leaving exDB8 unchanged. -/
theorem C8_amended_witness :
    create_post { title := "t2", content := "c", tags := [999] } 7 50 exDB8 =
      (exDB8, Except.error Err.badRequest) ∧
    update_post 1 exUpd8 7 50 exDB8 = (exDB8, Except.error Err.internalError) :=
  ⟨C8_amended.1 exDB8 { title := "t2", content := "c", tags := [999] } 7 50 rfl (by decide),
   C8_amended.2 exDB8 1 7 50 exUpd8 [999] exPost8 rfl rfl rfl (Or.inl (by decide))⟩

/-- Store for the C9 instance: post 1 with a comment, a comment like, a
post like, a post image, a comment image and a tag association. -/
def exDB9 : DB :=
  { posts := [exPost],
    tags := [{ id := 10, name := "x", user_id := 1 }],
    post_tags := [{ post_id := 1, tag_id := 10 }],
    comments := [{ id := 2, post_id := 1, user_id := 5, parent_id := none,
                   content := "hi", created_at := 10, updated_at := 10 }],
    comment_likes := [{ id := 4, comment_id := 2, user_id := 6, created_at := 12 }],
    likes := [{ id := 5, post_id := 1, user_id := 6, created_at := 13 }],
    post_images := [{ id := 6, post_id := some 1, image_url := "u" }],
    comment_images := [{ id := 7, comment_id := 2, image_url := "v" }],
    next_id := 20 }

/-- C9: delete_post cannot perform the claimed cascade.  With any Comment
row on the post, the ORM's de-association UPDATE (there is no delete
cascade on Post.comments) fires the bare onupdate=datetime default and
raises TypeError — an unhandled HTTP 500 that rolls the whole delete
back, every row still in place; the same holds for Like rows, and even a
successful delete merely orphans PostImage rows instead of removing
them. -/
theorem C9_delete_post_crashes (db : DB) (pid uid : Nat) (post : PostRow)
    (hfind : db.posts.find? (fun p => p.id == pid && p.user_id == uid) = some post)
    (hc : ∃ c ∈ db.comments, c.post_id = post.id) :
    delete_post pid uid db = (db, Except.error Err.internalError) := by
  have hany : db.comments.any (fun c => c.post_id == post.id) = true := by
    rcases hc with ⟨c, hc1, hc2⟩
    exact List.any_eq_true.mpr ⟨c, hc1, beq_iff_eq.mpr hc2⟩
  have hcond : (db.comments.any (fun c => c.post_id == post.id) ||
      db.likes.any (fun l => l.post_id == post.id)) = true := by
    rw [hany]
    rfl
  simp only [delete_post, hfind, if_pos hcond]

/-- Witness for C9: post 1 of exDB9 has a comment (and a like); the
owner's delete_post yields the unhandled 500 and every row survives. -/
theorem C9_delete_post_crashes_witness :
    delete_post 1 1 exDB9 = (exDB9, Except.error Err.internalError) :=
  C9_delete_post_crashes exDB9 1 1 exPost rfl (by decide)

/-- A request body that omits every field: pydantic fills the declared
defaults, in particular tags = [] (not None). -/
def emptyPostUpdate : PostUpdate := {}

/-- C10 counterexample: post 1 of exDB8 has a tag association; its
owner's update_post with the all-defaults body does not remove it — the
de-association blanks the PostTag primary key at flush, an unhandled 500,
and the association survives unchanged. -/
theorem C10_counterexample :
    emptyPostUpdate.tags = some [] ∧
    exDB8.post_tags = [{ post_id := 1, tag_id := 10 }] ∧
    update_post 1 emptyPostUpdate 7 50 exDB8 = (exDB8, Except.error Err.internalError) :=
  ⟨rfl, rfl, rfl⟩

/-- C10 amended: PostUpdate's tags field does default to the empty list
rather than null, so a body omitting tags always enters the
tag-replacement branch; but the branch does not clear the associations:
whenever the post has any tag association the flush blanks the PostTag
primary-key column (AssertionError, unhandled HTTP 500, rollback), and
the associations survive unchanged. -/
theorem C10_omitted_tags :
    emptyPostUpdate.tags = some [] ∧
    (∀ (db : DB) (pid uid now : Nat) (p : PostRow),
       findPost db pid = some p → p.user_id = uid →
       (∃ pt ∈ db.post_tags, pt.post_id = pid) →
       update_post pid emptyPostUpdate uid now db = (db, Except.error Err.internalError) ∧
       (update_post pid emptyPostUpdate uid now db).1.post_tags = db.post_tags) := by
  refine ⟨rfl, ?_⟩
  intro db pid uid now p hfind hown hpt
  have hb : (p.user_id != uid) = false := by
    simp [hown]
  have htags : emptyPostUpdate.tags = some [] := rfl
  have hcrash : updatePostCrash pid emptyPostUpdate db = true := by
    simp only [updatePostCrash, htags]
    rcases hpt with ⟨pt, hpt1, hpt2⟩
    have h1 : db.post_tags.any (fun pt => pt.post_id == pid) = true :=
      List.any_eq_true.mpr ⟨pt, hpt1, beq_iff_eq.mpr hpt2⟩
    rw [h1]
    rfl
  have heq : update_post pid emptyPostUpdate uid now db = (db, Except.error Err.internalError) := by
    simp only [update_post, hfind, if_neg (not_eq_true_of_eq_false hb), if_pos hcrash]
  exact ⟨heq, by rw [heq]⟩

/-- Witness for C10 at exDB8: the association (1, 10) is still there
after the crashing update. -/
theorem C10_omitted_tags_witness :
    update_post 1 emptyPostUpdate 7 50 exDB8 = (exDB8, Except.error Err.internalError) ∧
    (update_post 1 emptyPostUpdate 7 50 exDB8).1.post_tags = exDB8.post_tags :=
  C10_omitted_tags.2 exDB8 1 7 50 exPost8 rfl rfl (by decide)
